import Mathlib

/-!
Verification of the Capability Registry and Dynamic Discovery/Synthesis
subsystem of the communitypowerautomation repository.

The embedding below translates, in a shallow style, the two Python source
files that the claims are about:

* `test/dynamic_adapter_discovery.py` — requirement/record matching
  (`_calculate_match_score`, `_calculate_text_similarity`), the discovery
  orchestrator (`discover_adapter`, `_search_existing_adapters`,
  `_create_new_adapter`, `_load_adapter_module`, `_register_new_adapter`,
  `_record_discovery`, `_save_discovery_history`) and its data classes.
* `mcptool/adapters/core/unified_adapter_registry.py` — the registry store
  (`registered_adapters`, `adapter_instances`, `adapter_metadata`),
  `list_adapters`, `get_adapter`, `execute_adapter` and the registration
  helpers.

Python floats are modelled as exact rationals, Python dictionaries that are
used as keyed stores as association lists in insertion order, the file system
as a map from paths to file contents, and caught Python exceptions as
`Option`/`Except` values.  Effects that depend on the ambient Python runtime
(whether `exec_module` on a freshly generated file succeeds) enter the state
as an explicit oracle field.  Wall-clock timestamps are not modelled.
-/

/-- Model of Python `str.lower()` (ASCII case folding, as `Char.toLower`). -/
def pyLower (s : String) : String := String.mk (s.toList.map Char.toLower)

/-- Model of Python `str.split()` with no separator: split on runs of
whitespace and drop empty pieces. -/
def pyWords (s : String) : List String :=
  ((s.toList.splitOnP Char.isWhitespace).map (fun l => String.mk l)).filter (· ≠ "")

/-- Helper for `pyIn`: the first list is an initial segment of the second. -/
def listStartsWith : List Char → List Char → Bool
  | [], _ => true
  | _ :: _, [] => false
  | c :: cs, d :: ds => c == d && listStartsWith cs ds

/-- Helper for `pyIn`: the first list occurs contiguously inside the second. -/
def listContainsSub (sub : List Char) : List Char → Bool
  | [] => sub.isEmpty
  | d :: ds => listStartsWith sub (d :: ds) || listContainsSub sub ds

/-- Model of the Python substring test `sub in s` on strings. -/
def pyIn (sub s : String) : Bool := listContainsSub sub.toList s.toList

/-- Model of Python `str.capitalize()`: first character upper-cased, the rest
lower-cased. -/
def pyCapitalize (w : String) : String :=
  match w.toList with
  | [] => ""
  | c :: cs => String.mk (c.toUpper :: cs.map Char.toLower)

/-- Embeds `DynamicAdapterDiscovery._calculate_text_similarity`: token-set
Jaccard similarity of the whitespace-split word sets, with the two guard
clauses returning zero on empty inputs. -/
def calculate_text_similarity (text1 text2 : String) : ℚ :=
  if text1 = "" ∨ text2 = "" then 0
  else
    let words1 := (pyWords text1).toFinset
    let words2 := (pyWords text2).toFinset
    if words1 = ∅ ∨ words2 = ∅ then 0
    else ((words1 ∩ words2).card : ℚ) / ((words1 ∪ words2).card : ℚ)

/-- Embeds the dataclass `ToolRequirement`.  The two schema dictionaries are
opaque to the subsystem and carried as their JSON text. -/
structure ToolRequirement where
  name : String
  description : String
  capabilities : List String
  input_schema : String := ""
  output_schema : String := ""
  priority : Int := 1
  category : String := "general"

/-- Embeds the adapter dictionary produced by
`UnifiedAdapterRegistry.list_adapters` and consumed by
`_calculate_match_score`. -/
structure AdapterInfo where
  id : String
  name : String
  category : String
  category_name : String
  description : String
  capabilities : List String
  methods_count : Nat
  file_path : String
  registered_at : String

/-- Embeds the counting loop of `_calculate_match_score`: one point per
requirement capability for which some adapter capability matches by
case-insensitive substring containment in either direction (the inner
`for`/`break` is the `any`). -/
def capabilityMatches (reqCaps adapterCaps : List String) : Nat :=
  reqCaps.foldl
    (fun acc rc =>
      if adapterCaps.any (fun ac =>
          pyIn (pyLower rc) (pyLower ac) || pyIn (pyLower ac) (pyLower rc))
      then acc + 1 else acc) 0

/-- Embeds the category step of `_calculate_match_score`: add `0.1` when the
lowercased requirement category is a substring of the lowercased adapter
`category_name`. -/
def withCategoryBonus (req : ToolRequirement) (adapter : AdapterInfo) (s : ℚ) : ℚ :=
  if pyIn (pyLower req.category) (pyLower adapter.category_name) = true then s + 1/10 else s

/-- Embeds `DynamicAdapterDiscovery._calculate_match_score`.  The result is
`none` exactly when the Python code raises `ZeroDivisionError`: the adapter
has a non-empty capability list but the requirement capability list is empty,
so `capability_matches / len(requirement.capabilities)` divides by zero. -/
def calculate_match_score (req : ToolRequirement) (adapter : AdapterInfo) : Option ℚ :=
  let nameSim := calculate_text_similarity (pyLower req.name) (pyLower adapter.name)
  let descSim := calculate_text_similarity (pyLower req.description) (pyLower adapter.description)
  let base := nameSim * (3/10) + descSim * (2/10)
  if adapter.capabilities = [] then some (min 1 (withCategoryBonus req adapter base))
  else if req.capabilities.length = 0 then none
  else
    some (min 1 (withCategoryBonus req adapter
      (base + ((capabilityMatches req.capabilities adapter.capabilities : ℚ) /
               (req.capabilities.length : ℚ)) * (4/10))))

/-! ## Registry model (`unified_adapter_registry.py`) -/

/-- A constructed provider instance: whether it has a `process` attribute, and
the behaviour of calling `process` (an `error` models a raised exception). -/
structure AdapterInstance where
  has_process : Bool
  process : String → Except String String

/-- A provider class as stored in the registry; `construct` models calling the
class (an `error` models a constructor that raises). -/
structure AdapterClass where
  construct : Except String AdapterInstance

/-- Embeds one value of the `registered_adapters` dictionary.  For the
file-name fallback registration the class is `none` and the status field is
`some "file_only"`. -/
structure RegisteredAdapter where
  name : String
  cls : Option AdapterClass
  category : String
  file_path : String
  module_path : String
  registered_at : String
  status : Option String := none

/-- Embeds one value of the `adapter_metadata` dictionary (the fields that
`list_adapters` reads; `methods_count` stands for `len(metadata["methods"])`). -/
structure AdapterMetadata where
  description : String := "無描述"
  capabilities : List String := []
  methods_count : Nat := 0

/-- Embeds the mutable state of `UnifiedAdapterRegistry`: the three keyed
stores, as association lists in Python dict insertion order. -/
structure Registry where
  registered_adapters : List (String × RegisteredAdapter) := []
  adapter_instances : List (String × AdapterInstance) := []
  adapter_metadata : List (String × AdapterMetadata) := []

/-- Embeds the fixed `adapter_categories` dictionary. -/
def adapter_categories : List (String × String) :=
  [("core", "核心組件"), ("ai_enhanced", "AI增強功能"),
   ("unified_config_manager", "統一配置管理"),
   ("unified_smart_tool_engine", "統一智能工具引擎"),
   ("optimization", "優化相關"), ("workflow", "工作流引擎"),
   ("development_tools", "開發工具"), ("integration", "多適配器整合"),
   ("claude_adapter", "Claude適配器"), ("gemini_adapter", "Gemini適配器"),
   ("kilocode_adapter", "Kilocode適配器"),
   ("infinite_context_adapter", "無限上下文適配器"),
   ("enhanced_aci_dev_adapter", "增強ACI.dev適配器"),
   ("zapier_adapter", "Zapier適配器"), ("rl_srt", "強化學習SRT"),
   ("srt", "SRT適配器"), ("real_ai_adapter", "真實AI適配器"),
   ("fixed_mcp_so_adapter", "固定MCP.so適配器")]

/-- Model of Python dict assignment `d[k] = v`: replace in place when the key
exists, otherwise append (dicts preserve insertion order). -/
def dictSet {β : Type} (l : List (String × β)) (k : String) (v : β) : List (String × β) :=
  if l.any (fun p => p.1 == k) then l.map (fun p => if p.1 == k then (k, v) else p)
  else l ++ [(k, v)]

/-- Embeds `_generate_adapter_id`: every branch of the Python function returns
the lowercased name unchanged, so the category argument is unused. -/
def generate_adapter_id (name _category : String) : String := pyLower name

/-- Embeds `_determine_category`: first path part that is a key of
`adapter_categories`, otherwise the file-name keyword heuristics. -/
def determine_category (path_parts : List String) (file_stem : String) : String :=
  match path_parts.find? (fun part => (adapter_categories.lookup part).isSome) with
  | some part => part
  | none =>
    let file_name := pyLower file_stem
    if pyIn "config" file_name || pyIn "manager" file_name then "unified_config_manager"
    else if pyIn "tool" file_name || pyIn "engine" file_name then "unified_smart_tool_engine"
    else if pyIn "optimization" file_name then "optimization"
    else if pyIn "workflow" file_name then "workflow"
    else if pyIn "core" file_name then "core"
    else if pyIn "ai" file_name || pyIn "enhanced" file_name then "ai_enhanced"
    else "integration"

/-- Embeds `_register_adapter_class` together with `_collect_adapter_metadata`.
The reflective inputs (class object, docstring, runtime capability probe,
timestamp) enter as parameters because they come from the loaded Python
module; the stores are updated exactly as in the source. -/
def register_adapter_class (reg : Registry) (name : String) (cls : AdapterClass)
    (category file_path module_path ts : String) (md : AdapterMetadata) : Registry :=
  let adapter_id := generate_adapter_id name category
  { reg with
    registered_adapters := dictSet reg.registered_adapters adapter_id
      { name := name, cls := some cls, category := category, file_path := file_path,
        module_path := module_path, registered_at := ts, status := none },
    adapter_metadata := dictSet reg.adapter_metadata adapter_id md }

/-- Embeds the fallback branch of `_register_adapter_from_file`: a file whose
stem ends in `_mcp` but yields no adapter class is registered with no class,
status `"file_only"`, and no metadata entry. -/
def register_file_only (reg : Registry) (stem category file_path module_path ts : String) :
    Registry :=
  { reg with
    registered_adapters := dictSet reg.registered_adapters (pyLower stem)
      { name := stem, cls := none, category := category, file_path := file_path,
        module_path := module_path, registered_at := ts, status := some "file_only" } }

/-- Default metadata view used by `list_adapters` when `adapter_metadata` has
no entry for an id (Python `metadata.get(adapter_id, {})` plus per-field
defaults). -/
def defaultMetadata : AdapterMetadata := {}

/-- Embeds the dictionary that `list_adapters` builds for one registry entry. -/
def adapterInfoOf (reg : Registry) (p : String × RegisteredAdapter) : AdapterInfo :=
  let md := (reg.adapter_metadata.lookup p.1).getD defaultMetadata
  { id := p.1, name := p.2.name, category := p.2.category,
    category_name := (adapter_categories.lookup p.2.category).getD "未知",
    description := md.description, capabilities := md.capabilities,
    methods_count := md.methods_count, file_path := p.2.file_path,
    registered_at := p.2.registered_at }

/-- Sort key of `list_adapters`: the pair `(category, name)` compared
lexicographically, as for Python tuples. -/
def adapterKeyLe (a b : AdapterInfo) : Bool :=
  decide (a.category < b.category) || (a.category == b.category && decide (a.name ≤ b.name))

/-- Stable insertion used by `stableSortBy`. -/
def insertSorted {α : Type} (le : α → α → Bool) (x : α) : List α → List α
  | [] => [x]
  | y :: ys => if le y x then y :: insertSorted le x ys else x :: y :: ys

/-- Stable sort modelling Python `sorted` (insertion sort: equal keys keep
their original order). -/
def stableSortBy {α : Type} (le : α → α → Bool) (l : List α) : List α :=
  l.foldl (fun acc x => insertSorted le x acc) []

/-- Embeds `UnifiedAdapterRegistry.list_adapters` with no category filter (as
called from `_search_existing_adapters`): a view of every entry of
`registered_adapters` — there is no status filter — sorted by
`(category, name)`. -/
def list_adapters (reg : Registry) : List AdapterInfo :=
  stableSortBy adapterKeyLe (reg.registered_adapters.map (adapterInfoOf reg))

/-- Embeds `UnifiedAdapterRegistry.get_adapter`: unknown id raises, a cached
instance is returned as is, otherwise the class is called and the instance
cached; calling the `None` class of a file-only record raises `TypeError`.
Raised exceptions are the `error` case. -/
def get_adapter (reg : Registry) (adapter_id : String) :
    Except String (AdapterInstance × Registry) :=
  match reg.registered_adapters.lookup adapter_id with
  | none => .error ("未找到適配器: " ++ adapter_id)
  | some info =>
    match reg.adapter_instances.lookup adapter_id with
    | some inst => .ok (inst, reg)
    | none =>
      match info.cls with
      | none => .error "TypeError: NoneType object is not callable"
      | some c =>
        match c.construct with
        | .error e => .error e
        | .ok inst =>
          .ok (inst, { reg with adapter_instances := dictSet reg.adapter_instances adapter_id inst })

/-- Embeds the dictionary returned by `UnifiedAdapterRegistry.execute_adapter`
(the nondeterministic timestamp field is not modelled). -/
structure ExecResult where
  status : String
  adapter_id : String
  result : Option String := none
  error : Option String := none

/-- Embeds `UnifiedAdapterRegistry.execute_adapter`: the whole body sits in a
`try`/`except Exception` block, so every raised exception is converted into a
status `"error"` dictionary and nothing propagates to the caller. -/
def execute_adapter (reg : Registry) (adapter_id : String) (input_data : String) :
    ExecResult × Registry :=
  match get_adapter reg adapter_id with
  | .error e => ({ status := "error", adapter_id := adapter_id, error := some e }, reg)
  | .ok (adapter, reg1) =>
    if adapter.has_process = true then
      match adapter.process input_data with
      | .error e => ({ status := "error", adapter_id := adapter_id, error := some e }, reg1)
      | .ok r => ({ status := "success", adapter_id := adapter_id, result := some r }, reg1)
    else
      ({ status := "error", adapter_id := adapter_id,
         error := some ("適配器 " ++ adapter_id ++ " 沒有process方法") }, reg1)

/-! ## Discovery model (`dynamic_adapter_discovery.py`) -/

/-- Embeds the `creation_details` dictionary of `_create_new_adapter`: the
success shape built on the normal path, or the error shape built in the
`except` clause. -/
inductive CreationDetails where
  | success (adapter_file : String) (code_lines : Nat) (template_used : String)
      (capabilities_implemented : List String)
  | failure (error : String)
deriving DecidableEq

/-- True only for the error shape of `creation_details`. -/
def CreationDetails.isFailure : CreationDetails → Bool
  | .success .. => false
  | .failure _ => true

/-- Embeds the dataclass `AdapterDiscoveryResult` with its Python defaults. -/
structure AdapterDiscoveryResult where
  found : Bool
  adapter_id : Option String := none
  adapter_name : Option String := none
  match_score : ℚ := 0
  capabilities : Option (List String) := none
  created_new : Bool := false
  creation_details : Option CreationDetails := none

/-- Requirement snapshot stored by `_record_discovery` (name, description,
capabilities, category, priority). -/
structure RequirementSnapshot where
  name : String
  description : String
  capabilities : List String
  category : String
  priority : Int
deriving DecidableEq

/-- Result snapshot stored by `_record_discovery`. -/
structure ResultSnapshot where
  found : Bool
  adapter_id : Option String
  adapter_name : Option String
  match_score : ℚ
  created_new : Bool
  creation_details : Option CreationDetails
deriving DecidableEq

/-- One entry of the in-memory `discovery_history` list (the wall-clock
timestamp field is not modelled). -/
structure DiscoveryRecord where
  requirement : RequirementSnapshot
  result : ResultSnapshot
deriving DecidableEq

/-- Builds the requirement snapshot of `_record_discovery`. -/
def snapshotRequirement (req : ToolRequirement) : RequirementSnapshot :=
  { name := req.name, description := req.description, capabilities := req.capabilities,
    category := req.category, priority := req.priority }

/-- Builds the result snapshot of `_record_discovery`. -/
def snapshotResult (r : AdapterDiscoveryResult) : ResultSnapshot :=
  { found := r.found, adapter_id := r.adapter_id, adapter_name := r.adapter_name,
    match_score := r.match_score, created_new := r.created_new,
    creation_details := r.creation_details }

/-- The `DiscoveryRecord` appended by `_record_discovery`. -/
def mkDiscoveryRecord (req : ToolRequirement) (r : AdapterDiscoveryResult) : DiscoveryRecord :=
  ⟨snapshotRequirement req, snapshotResult r⟩

/-- Embeds the mutable state of `DynamicAdapterDiscovery` plus its ambient
effects: the optional registry, the in-memory history, the file system as a
map from paths to contents, and a load oracle giving the outcome that
`importlib` would produce for the file at a path (`_load_adapter_module`
catches every load exception and returns `None`, modelled as `false`). -/
structure DiscoverySystem where
  project_root : String
  adapter_registry : Option Registry
  discovery_history : List DiscoveryRecord := []
  fs : String → Option String
  loader : String → Bool

/-- Embeds `self.generated_dir = project_root / "mcptool" / "adapters" / "generated"`. -/
def generated_dir (sys : DiscoverySystem) : String :=
  sys.project_root ++ "/mcptool/adapters/generated"

/-- Embeds `requirement.name.lower().replace(' ', '_')`. -/
def adapter_file_slug (req : ToolRequirement) : String :=
  String.mk ((pyLower req.name).toList.map (fun c => if c = ' ' then '_' else c))

/-- Embeds the generated file name of `_create_new_adapter`. -/
def adapter_filename (req : ToolRequirement) : String := adapter_file_slug req ++ "_adapter.py"

/-- Path of the generated adapter file. -/
def adapter_path (sys : DiscoverySystem) (req : ToolRequirement) : String :=
  generated_dir sys ++ "/" ++ adapter_filename req

/-- Embeds `_select_template`. -/
def select_template (req : ToolRequirement) : String :=
  if 3 < req.capabilities.length ∨ 5 < req.priority then "advanced_tool_adapter"
  else "basic_mcp_adapter"

/-- Embeds the class-name derivation of `_generate_adapter_code`. -/
def adapter_class_name (req : ToolRequirement) : String :=
  String.join ((pyWords req.name).map pyCapitalize) ++ "MCP"

/-- Embeds `_generate_adapter_code`.  The fixed Python boilerplate of the two
templates is abbreviated: the rendering keeps the selected template name and
every substituted field (description, class name, name, capabilities, the two
schemas, category), so it is the same deterministic function of the
requirement up to constant surrounding text, which no claim inspects. -/
def generate_adapter_code (req : ToolRequirement) : String :=
  String.intercalate "\n"
    [select_template req, req.description, adapter_class_name req, req.name,
     String.intercalate "," req.capabilities, req.input_schema, req.output_schema,
     req.category]

/-- Model of the file-write `open(path, "w").write(content)`: set the content
at the path, unconditionally. -/
def writeFile (fs : String → Option String) (path content : String) :
    String → Option String :=
  fun p => if p = path then some content else fs p

/-- Embeds `_register_new_adapter`: apart from logging, the body of the Python
function is empty — it never touches the registry stores. -/
def register_new_adapter (sys : DiscoverySystem) (_req : ToolRequirement) : DiscoverySystem :=
  sys

/-- Embeds `_create_new_adapter`: render the code, write the file, try to load
it (`_load_adapter_module` returns `None` on failure, here `loader = false`),
call `_register_new_adapter` only when a registry exists and the load
succeeded, and return the success result with `created_new := true` and
`match_score := 1` — the Python code reaches this return regardless of the
load outcome, because the load failure was swallowed inside
`_load_adapter_module`. -/
def create_new_adapter (sys : DiscoverySystem) (req : ToolRequirement) :
    DiscoverySystem × AdapterDiscoveryResult :=
  let adapter_code := generate_adapter_code req
  let path := adapter_path sys req
  let sys1 : DiscoverySystem := { sys with fs := writeFile sys.fs path adapter_code }
  let module_loaded := sys1.loader path
  let sys2 := if sys1.adapter_registry.isSome = true ∧ module_loaded = true
              then register_new_adapter sys1 req else sys1
  (sys2,
    { found := true,
      adapter_id := some ("generated." ++ adapter_file_slug req),
      adapter_name := some req.name,
      match_score := 1,
      capabilities := some req.capabilities,
      created_new := true,
      creation_details := some (CreationDetails.success path
        ((adapter_code.splitOn "\n").length) (select_template req) req.capabilities) })

/-- Path of the history file written by `_save_discovery_history`. -/
def history_file (sys : DiscoverySystem) : String :=
  sys.project_root ++ "/test/results/adapter_discovery_history.json"

/-- Serialization of one history record; the JSON rendering of
`_save_discovery_history` is abbreviated to a line format, which no claim
inspects. -/
def renderDiscoveryRecord (r : DiscoveryRecord) : String :=
  r.requirement.name ++ "|" ++ toString r.result.found ++ "|" ++ toString r.result.created_new

/-- Embeds `_save_discovery_history`: write the serialized history to the
history file. -/
def save_discovery_history (sys : DiscoverySystem) : DiscoverySystem :=
  { sys with fs := (writeFile sys.fs (history_file sys)
      (String.intercalate "\n" (sys.discovery_history.map renderDiscoveryRecord))) }

/-- Embeds `_record_discovery`: append one record to the in-memory history,
then save the history file. -/
def record_discovery (sys : DiscoverySystem) (req : ToolRequirement)
    (result : AdapterDiscoveryResult) : DiscoverySystem :=
  save_discovery_history
    { sys with discovery_history := sys.discovery_history ++ [mkDiscoveryRecord req result] }

/-- One step of the best-match loop of `_search_existing_adapters`; `none`
propagates a `ZeroDivisionError` raised by the scoring call. -/
def bestStep (req : ToolRequirement) (acc : Option AdapterInfo × ℚ) (a : AdapterInfo) :
    Option (Option AdapterInfo × ℚ) :=
  (calculate_match_score req a).map (fun s => if acc.2 < s then (some a, s) else acc)

/-- Embeds `_search_existing_adapters`: without a registry return not-found;
otherwise scan `list_adapters` keeping the best strict improvement, and return
a found result only when a best match exists with score strictly above `0.5`.
An exception anywhere in the loop is caught by the surrounding `except` and
falls through to the not-found return. -/
def search_existing_adapters (sys : DiscoverySystem) (req : ToolRequirement) :
    AdapterDiscoveryResult :=
  match sys.adapter_registry with
  | none => { found := false }
  | some reg =>
    match (list_adapters reg).foldlM (bestStep req) (none, 0) with
    | none => { found := false }
    | some (best, bestScore) =>
      match best with
      | none => { found := false }
      | some bm =>
        if 1/2 < bestScore then
          { found := true, adapter_id := some bm.id, adapter_name := some bm.name,
            match_score := bestScore, capabilities := some bm.capabilities }
        else { found := false }

/-- Embeds `discover_adapter`: reuse the existing result only when it is found
with score strictly above `0.8`; otherwise create a new adapter, record the
discovery, and return the creation result.  No history record is written on
the direct-reuse path. -/
def discover_adapter (sys : DiscoverySystem) (req : ToolRequirement) :
    DiscoverySystem × AdapterDiscoveryResult :=
  let existing := search_existing_adapters sys req
  if existing.found = true ∧ 8/10 < existing.match_score then (sys, existing)
  else
    let creation := create_new_adapter sys req
    (record_discovery creation.1 req creation.2, creation.2)

/-! ## Statement-side formulations

`spec_match_score` renders the scoring formula exactly as the specification
states it (set intersection of the tags over the requirement tags, category
bonus on matching category); it is compared against the source-derived
`calculate_match_score`.  `amended_match_score` renders the amended claim. -/

/-- Scoring formula as written in the specification for claim C1:
`0.3·nameSim + 0.2·descSim + 0.4·(|R.tags ∩ A.tags| / |R.tags|) + 0.1·categoryBonus`
with the tag overlap a set intersection over the requirement tags. -/
def spec_match_score (req : ToolRequirement) (adapter : AdapterInfo) : ℚ :=
  let nameSim := calculate_text_similarity (pyLower req.name) (pyLower adapter.name)
  let descSim := calculate_text_similarity (pyLower req.description) (pyLower adapter.description)
  let tagOverlap : ℚ :=
    ((req.capabilities.toFinset ∩ adapter.capabilities.toFinset).card : ℚ) /
      ((req.capabilities.toFinset).card : ℚ)
  let bonus : ℚ := if req.category = adapter.category then 1/10 else 0
  nameSim * (3/10) + descSim * (2/10) + tagOverlap * (4/10) + bonus

/-- Scoring formula of the amended claim C1: the tag component counts the
requirement tags that match some adapter tag by case-insensitive substring
containment in either direction, divided by the number of requirement tags,
and is zero when the adapter has no tags; the bonus is `0.1` when the
lowercased category hint occurs as a substring of the lowercased adapter
category display name; the sum is clamped to at most `1`; the score is
undefined (a runtime error) when the adapter has tags but the requirement has
none. -/
def amended_match_score (req : ToolRequirement) (adapter : AdapterInfo) : Option ℚ :=
  if adapter.capabilities ≠ [] ∧ req.capabilities = [] then none
  else
    let nameSim := calculate_text_similarity (pyLower req.name) (pyLower adapter.name)
    let descSim := calculate_text_similarity (pyLower req.description) (pyLower adapter.description)
    let tagPart : ℚ :=
      if adapter.capabilities = [] then 0
      else ((req.capabilities.countP (fun rc => adapter.capabilities.any (fun ac =>
              pyIn (pyLower rc) (pyLower ac) || pyIn (pyLower ac) (pyLower rc))) : ℚ) /
            (req.capabilities.length : ℚ))
    let bonus : ℚ :=
      if pyIn (pyLower req.category) (pyLower adapter.category_name) = true then 1/10 else 0
    some (min 1 (nameSim * (3/10) + descSim * (2/10) + tagPart * (4/10) + bonus))

/-! ## Concrete sample inputs used by counterexamples and witnesses -/

/-- An adapter class whose construction and processing both succeed. -/
def clsOk : AdapterClass :=
  { construct := .ok { has_process := true, process := fun s => .ok s } }

/-- Requirement whose single tag `csv` matches the adapter tag `csv_parsing`
by substring but not by set intersection. -/
def reqC1 : ToolRequirement :=
  { name := "aaa", description := "bbb", capabilities := ["csv"], category := "general" }

/-- Adapter record with tag `csv_parsing` and a category distinct from the
requirement category. -/
def adpC1 : AdapterInfo :=
  { id := "data_analyzer", name := "ccc", category := "integration",
    category_name := "多適配器整合", description := "ddd", capabilities := ["csv_parsing"],
    methods_count := 0, file_path := "", registered_at := "" }

/-- Registry holding one adapter that scores exactly `0.6` against `reqC2`:
name similarity `1`, description similarity `1`, no capability tags, and the
category bonus. -/
def regC2 : Registry :=
  register_adapter_class {} "csv tool" clsOk "core" "adapters/core/csv.py" "adapters.core.csv"
    "2024-01-01" { description := "good tool", capabilities := [], methods_count := 0 }

/-- Requirement matching `regC2` at score `0.6`, inside the weak-match band. -/
def reqC2 : ToolRequirement :=
  { name := "csv tool", description := "good tool", capabilities := ["csv_parsing"],
    category := "核心" }

/-- Discovery state over `regC2`. -/
def sysC2 : DiscoverySystem :=
  { project_root := "pr2", adapter_registry := some regC2, fs := fun _ => none,
    loader := fun _ => true }

/-- Discovery state over an empty registry with a load oracle that always
succeeds. -/
def sysC3 : DiscoverySystem :=
  { project_root := "pr3", adapter_registry := some {}, fs := fun _ => none,
    loader := fun _ => true }

/-- Requirement driving a synthesis against the empty registry. -/
def reqC3 : ToolRequirement :=
  { name := "api tester", description := "tests api endpoints",
    capabilities := ["api_testing"], category := "testing" }

/-- Registry holding one adapter that scores `0.9` against `reqC4` (direct
reuse band). -/
def regC4 : Registry :=
  register_adapter_class {} "csv analyzer" clsOk "core" "adapters/core/a.py" "adapters.core.a"
    "2024-01-02" { description := "analyzes csv", capabilities := ["csv_parsing"],
                   methods_count := 1 }

/-- Requirement matching `regC4` at score `0.9`. -/
def reqC4 : ToolRequirement :=
  { name := "csv analyzer", description := "analyzes csv", capabilities := ["csv_parsing"],
    category := "general" }

/-- Discovery state over `regC4`. -/
def sysC4 : DiscoverySystem :=
  { project_root := "pr4", adapter_registry := some regC4, fs := fun _ => none,
    loader := fun _ => true }

/-- Discovery state whose load oracle always fails: every generated module
fails to load. -/
def sysC5 : DiscoverySystem :=
  { project_root := "pr5", adapter_registry := some {}, fs := fun _ => none,
    loader := fun _ => false }

/-- Requirement driving a synthesis whose generated module fails to load. -/
def reqC5 : ToolRequirement :=
  { name := "pdf reader", description := "reads pdf files", capabilities := ["pdf_parsing"],
    category := "general" }

/-- Registry holding one adapter with a non-empty capability list, so that
scoring it against an empty-tag requirement divides by zero. -/
def regC6 : Registry :=
  register_adapter_class {} "alpha" clsOk "core" "adapters/core/alpha.py" "adapters.core.alpha"
    "2024-01-03" { description := "beta", capabilities := ["gamma"], methods_count := 0 }

/-- The adapter view that `list_adapters` produces for the single entry of
`regC6`. -/
def adpC6 : AdapterInfo :=
  { id := "alpha", name := "alpha", category := "core", category_name := "核心組件",
    description := "beta", capabilities := ["gamma"], methods_count := 0,
    file_path := "adapters/core/alpha.py", registered_at := "2024-01-03" }

/-- Requirement with an empty capability-tag list. -/
def reqC6 : ToolRequirement :=
  { name := "delta", description := "eps", capabilities := [], category := "general" }

/-- Discovery state over `regC6`. -/
def sysC6 : DiscoverySystem :=
  { project_root := "pr6", adapter_registry := some regC6, fs := fun _ => none,
    loader := fun _ => true }

/-- Requirement whose generated file path already exists with different
content in `sysC7`. -/
def reqC7 : ToolRequirement :=
  { name := "x", description := "xd", capabilities := ["xc"], category := "general" }

/-- Discovery state whose file system already holds conflicting content at
the path the synthesizer will write. -/
def sysC7 : DiscoverySystem :=
  { project_root := "pr7", adapter_registry := some {},
    fs := fun p => if p = "pr7/mcptool/adapters/generated/x_adapter.py"
                   then some "conflicting old content" else none,
    loader := fun _ => true }

/-- File system with content already identical to what will be written, for
the idempotence half of claim C7. -/
def fsC7 : String → Option String :=
  fun p => if p = "g/x_adapter.py" then some "same" else none

/-- Requirement used by the C8 witness; it scores `0.9` against `adpC8`. -/
def reqC8 : ToolRequirement :=
  { name := "w", description := "w", capabilities := ["k"], category := "general" }

/-- Adapter used by the C8 witness. -/
def adpC8 : AdapterInfo :=
  { id := "w", name := "w", category := "core", category_name := "核心組件",
    description := "w", capabilities := ["k"], methods_count := 0, file_path := "",
    registered_at := "" }

/-- Registry holding one record registered through the file-only fallback
(no class, status `"file_only"`, no metadata). -/
def regC9 : Registry :=
  register_file_only {} "csv_tool_mcp" "core" "/a/csv_tool_mcp.py" "adapters.csv_tool_mcp"
    "2024-01-04"

/-- The record stored in `regC9`. -/
def infoC9 : RegisteredAdapter :=
  { name := "csv_tool_mcp", cls := none, category := "core",
    file_path := "/a/csv_tool_mcp.py", module_path := "adapters.csv_tool_mcp",
    registered_at := "2024-01-04", status := some "file_only" }

/-- Requirement scoring `0.6` against the file-only record of `regC9`. -/
def reqC9 : ToolRequirement :=
  { name := "csv_tool_mcp", description := "無描述", capabilities := ["csv"],
    category := "核心" }

/-- Discovery state over `regC9`. -/
def sysC9 : DiscoverySystem :=
  { project_root := "pr9", adapter_registry := some regC9, fs := fun _ => none,
    loader := fun _ => true }

/-! ## Lemmas -/

theorem text_similarity_nonneg (t1 t2 : String) : 0 ≤ calculate_text_similarity t1 t2 := by
  simp only [calculate_text_similarity]
  split
  · exact le_refl 0
  · split
    · exact le_refl 0
    · exact div_nonneg (Nat.cast_nonneg _) (Nat.cast_nonneg _)

theorem text_similarity_le_one (t1 t2 : String) : calculate_text_similarity t1 t2 ≤ 1 := by
  simp only [calculate_text_similarity]
  split
  · norm_num
  · split
    · norm_num
    · rename_i hne
      push_neg at hne
      rw [div_le_one]
      · exact_mod_cast Finset.card_le_card Finset.inter_subset_union
      · exact_mod_cast Finset.card_pos.mpr
          ((Finset.nonempty_iff_ne_empty.mpr hne.1).mono Finset.subset_union_left)

theorem withCategoryBonus_nonneg (req : ToolRequirement) (adapter : AdapterInfo) {x : ℚ}
    (hx : 0 ≤ x) : 0 ≤ withCategoryBonus req adapter x := by
  unfold withCategoryBonus; split <;> linarith

theorem withCategoryBonus_le (req : ToolRequirement) (adapter : AdapterInfo) (x : ℚ) :
    withCategoryBonus req adapter x ≤ x + 1/10 := by
  unfold withCategoryBonus; split <;> linarith

theorem match_score_bounds (req : ToolRequirement) (adapter : AdapterInfo) (s : ℚ)
    (h : calculate_match_score req adapter = some s) : 0 ≤ s ∧ s ≤ 1 := by
  have h1 := text_similarity_nonneg (pyLower req.name) (pyLower adapter.name)
  have h2 := text_similarity_nonneg (pyLower req.description) (pyLower adapter.description)
  have hbase : 0 ≤ calculate_text_similarity (pyLower req.name) (pyLower adapter.name) * (3/10)
      + calculate_text_similarity (pyLower req.description) (pyLower adapter.description) * (2/10) := by
    linarith
  have hmin : ∀ x : ℚ, 0 ≤ x → 0 ≤ min 1 x ∧ min 1 x ≤ 1 := fun x hx =>
    ⟨le_min (by norm_num) hx, min_le_left 1 x⟩
  revert h
  simp only [calculate_match_score]
  split
  · intro h
    rw [Option.some.injEq] at h
    rw [← h]
    exact hmin _ (withCategoryBonus_nonneg _ _ hbase)
  · split
    · intro h; exact absurd h (by simp)
    · intro h
      rw [Option.some.injEq] at h
      rw [← h]
      refine hmin _ (withCategoryBonus_nonneg _ _ ?_)
      have : (0:ℚ) ≤ ((capabilityMatches req.capabilities adapter.capabilities : ℚ) /
          (req.capabilities.length : ℚ)) * (4/10) :=
        mul_nonneg (div_nonneg (Nat.cast_nonneg _) (Nat.cast_nonneg _)) (by norm_num)
      linarith

theorem match_score_le_of_empty (req : ToolRequirement) (adapter : AdapterInfo)
    (hreq : req.capabilities = []) (s : ℚ)
    (h : calculate_match_score req adapter = some s) : s ≤ 3/5 := by
  have h1 := text_similarity_le_one (pyLower req.name) (pyLower adapter.name)
  have h1n := text_similarity_nonneg (pyLower req.name) (pyLower adapter.name)
  have h2 := text_similarity_le_one (pyLower req.description) (pyLower adapter.description)
  have h2n := text_similarity_nonneg (pyLower req.description) (pyLower adapter.description)
  revert h
  simp only [calculate_match_score]
  split
  · intro h
    rw [Option.some.injEq] at h
    rw [← h]
    have hb := withCategoryBonus_le req adapter
      (calculate_text_similarity (pyLower req.name) (pyLower adapter.name) * (3/10)
        + calculate_text_similarity (pyLower req.description) (pyLower adapter.description) * (2/10))
    have hm := min_le_right (1:ℚ) (withCategoryBonus req adapter
      (calculate_text_similarity (pyLower req.name) (pyLower adapter.name) * (3/10)
        + calculate_text_similarity (pyLower req.description) (pyLower adapter.description) * (2/10)))
    linarith
  · rw [hreq]
    simp

theorem foldBest_prop (req : ToolRequirement) (Q : ℚ → Prop)
    (hQ : ∀ a s, calculate_match_score req a = some s → Q s) :
    ∀ (l : List AdapterInfo) (acc r : Option AdapterInfo × ℚ),
      Q acc.2 → l.foldlM (bestStep req) acc = some r → Q r.2 := by
  intro l
  induction l with
  | nil =>
    intro acc r hacc h
    simp only [List.foldlM] at h
    cases h
    exact hacc
  | cons a l ih =>
    intro acc r hacc h
    simp only [List.foldlM] at h
    cases hs : calculate_match_score req a with
    | none => rw [bestStep, hs] at h; simp at h
    | some s =>
      rw [bestStep, hs] at h
      simp only [Option.map_some', Option.some_bind] at h
      by_cases hlt : acc.2 < s
      · rw [if_pos hlt] at h; exact ih _ r (hQ a s hs) h
      · rw [if_neg hlt] at h; exact ih _ r hacc h

theorem search_created_new_false (sys : DiscoverySystem) (req : ToolRequirement) :
    (search_existing_adapters sys req).created_new = false := by
  unfold search_existing_adapters
  repeat' split
  all_goals rfl

theorem search_match_score_nonneg (sys : DiscoverySystem) (req : ToolRequirement) :
    0 ≤ (search_existing_adapters sys req).match_score := by
  unfold search_existing_adapters
  split
  · exact le_refl 0
  · rename_i reg heq
    split
    · exact le_refl 0
    · rename_i best bestScore hfold
      have hq : (0:ℚ) ≤ bestScore :=
        foldBest_prop req (fun t => 0 ≤ t) (fun a s hs => (match_score_bounds req a s hs).1)
          _ _ (best, bestScore) (le_refl 0) hfold
      split
      · exact le_refl 0
      · split
        · exact hq
        · exact le_refl 0

theorem search_match_score_le (sys : DiscoverySystem) (req : ToolRequirement) (B : ℚ)
    (hB : 0 ≤ B) (h : ∀ a s, calculate_match_score req a = some s → s ≤ B) :
    (search_existing_adapters sys req).match_score ≤ B := by
  unfold search_existing_adapters
  split
  · exact hB
  · rename_i reg heq
    split
    · exact hB
    · rename_i best bestScore hfold
      have hq : bestScore ≤ B :=
        foldBest_prop req (fun t => t ≤ B) h _ _ (best, bestScore) hB hfold
      split
      · exact hB
      · split
        · exact hq
        · exact hB

theorem mem_insertSorted {α : Type} (le : α → α → Bool) (x y : α) :
    ∀ l : List α, y ∈ insertSorted le x l ↔ y = x ∨ y ∈ l := by
  intro l
  induction l with
  | nil => simp [insertSorted]
  | cons z zs ih =>
    simp only [insertSorted]
    split
    · simp only [List.mem_cons, ih]
      try tauto
    · simp only [List.mem_cons]
      try tauto

theorem mem_stableSortBy {α : Type} (le : α → α → Bool) (y : α) (l : List α) :
    y ∈ stableSortBy le l ↔ y ∈ l := by
  have aux : ∀ (l acc : List α),
      y ∈ l.foldl (fun acc x => insertSorted le x acc) acc ↔ y ∈ acc ∨ y ∈ l := by
    intro l
    induction l with
    | nil => intro acc; simp
    | cons x xs ih =>
      intro acc
      rw [List.foldl_cons, ih, mem_insertSorted]
      simp only [List.mem_cons]
      tauto
  simpa [stableSortBy] using aux l []

theorem foldl_count_eq_countP (p : String → Bool) :
    ∀ (l : List String) (n : Nat),
      l.foldl (fun acc rc => if p rc then acc + 1 else acc) n = n + l.countP p := by
  intro l
  induction l with
  | nil => simp
  | cons x xs ih =>
    intro n
    rw [List.foldl_cons, ih, List.countP_cons]
    cases hpx : p x <;> simp [hpx]
    all_goals omega

theorem capabilityMatches_eq_countP (reqCaps adapterCaps : List String) :
    capabilityMatches reqCaps adapterCaps =
      reqCaps.countP (fun rc => adapterCaps.any (fun ac =>
        pyIn (pyLower rc) (pyLower ac) || pyIn (pyLower ac) (pyLower rc))) := by
  unfold capabilityMatches
  rw [foldl_count_eq_countP]
  omega

/-- C1 (amended): the match score equals
`min 1 (0.3·nameSim + 0.2·descSim + 0.4·tagPart + bonus)` where the tag part
counts requirement tags with a case-insensitive substring match against some
adapter tag (zero when the adapter has no tags) and the bonus is `0.1` when
the lowercased category hint is a substring of the lowercased category display
name; the score is undefined when the adapter has tags and the requirement
has none. -/
theorem match_score_formula_amended (req : ToolRequirement) (adapter : AdapterInfo) :
    calculate_match_score req adapter = amended_match_score req adapter := by
  simp only [calculate_match_score, amended_match_score]
  by_cases hcap : adapter.capabilities = []
  · rw [if_pos hcap, if_neg (by simp [hcap]), if_pos hcap]
    congr 1
    unfold withCategoryBonus
    split
    all_goals congr 1
    all_goals ring
  · rw [if_neg hcap]
    by_cases hlen : req.capabilities.length = 0
    · rw [if_pos hlen, if_pos ⟨hcap, List.length_eq_zero.mp hlen⟩]
    · rw [if_neg hlen, if_neg (fun hand => hlen (by rw [hand.2]; rfl)), if_neg hcap]
      congr 1
      rw [capabilityMatches_eq_countP]
      unfold withCategoryBonus
      split <;> (congr 1 <;> ring)

/-- C2 (amended): when the best existing match has score strictly above 0.8 it
is reused directly; otherwise — including the weak-match band
0.5 < score ≤ 0.8 — the search result is discarded and synthesis runs, with
the creation result returned. -/
theorem discovery_threshold_policy (sys : DiscoverySystem) (req : ToolRequirement) :
    ((search_existing_adapters sys req).found = true ∧
        8/10 < (search_existing_adapters sys req).match_score →
      (discover_adapter sys req).2 = search_existing_adapters sys req ∧
      (discover_adapter sys req).2.created_new = false) ∧
    (((search_existing_adapters sys req).found = true →
        (search_existing_adapters sys req).match_score ≤ 8/10) →
      (discover_adapter sys req).2.created_new = true ∧
      (discover_adapter sys req).2 = (create_new_adapter sys req).2) := by
  constructor
  · intro hc
    have hd : discover_adapter sys req = (sys, search_existing_adapters sys req) := by
      simp only [discover_adapter, if_pos hc]
    rw [hd]
    exact ⟨rfl, search_created_new_false sys req⟩
  · intro himp
    have hcond : ¬((search_existing_adapters sys req).found = true ∧
        8/10 < (search_existing_adapters sys req).match_score) := by
      rintro ⟨hf, hgt⟩
      have := himp hf
      linarith
    simp only [discover_adapter, if_neg hcond]
    exact ⟨by simp only [create_new_adapter], trivial⟩

/-- C4 (amended): a history record is appended exactly on the synthesis path;
the direct-reuse path returns without touching the history. -/
theorem discovery_history_policy (sys : DiscoverySystem) (req : ToolRequirement) :
    (discover_adapter sys req).1.discovery_history =
      (if (search_existing_adapters sys req).found = true ∧
          8/10 < (search_existing_adapters sys req).match_score
       then sys.discovery_history
       else sys.discovery_history ++ [mkDiscoveryRecord req (create_new_adapter sys req).2]) := by
  by_cases hc : (search_existing_adapters sys req).found = true ∧
      8/10 < (search_existing_adapters sys req).match_score
  · simp only [discover_adapter, if_pos hc]
  · simp only [discover_adapter, if_neg hc]
    simp only [record_discovery, save_discovery_history]
    have hcr : (create_new_adapter sys req).1.discovery_history = sys.discovery_history := by
      simp only [create_new_adapter, register_new_adapter]
      split <;> rfl
    rw [hcr]

/-- C6 (amended): a requirement with an empty capability-tag list is not
rejected; discovery always proceeds to synthesis for it (no existing record
can reach the reuse threshold because scoring either raises or omits the
0.4 capability component). -/
theorem empty_tags_proceed_to_synthesis (sys : DiscoverySystem) (req : ToolRequirement)
    (h : req.capabilities = []) :
    (discover_adapter sys req).2.created_new = true ∧
    (discover_adapter sys req).2 = (create_new_adapter sys req).2 := by
  have hle : (search_existing_adapters sys req).match_score ≤ 3/5 :=
    search_match_score_le sys req (3/5) (by norm_num)
      (fun a s hs => match_score_le_of_empty req a h s hs)
  have hcond : ¬((search_existing_adapters sys req).found = true ∧
      8/10 < (search_existing_adapters sys req).match_score) := by
    rintro ⟨-, hgt⟩
    linarith
  simp only [discover_adapter, if_neg hcond]
  exact ⟨by simp only [create_new_adapter], trivial⟩

/-- C8 (confirmed): every defined match score lies in the unit interval, and
consequently the match score carried by every discovery result does too. -/
theorem match_score_in_unit_interval :
    (∀ req adapter s, calculate_match_score req adapter = some s → 0 ≤ s ∧ s ≤ 1) ∧
    (∀ sys req, 0 ≤ (discover_adapter sys req).2.match_score ∧
        (discover_adapter sys req).2.match_score ≤ 1) := by
  refine ⟨match_score_bounds, fun sys req => ?_⟩
  by_cases hc : (search_existing_adapters sys req).found = true ∧
      8/10 < (search_existing_adapters sys req).match_score
  · simp only [discover_adapter, if_pos hc]
    exact ⟨search_match_score_nonneg sys req,
      search_match_score_le sys req 1 (by norm_num)
        (fun a s hs => (match_score_bounds req a s hs).2)⟩
  · simp only [discover_adapter, if_neg hc]
    simp only [create_new_adapter]
    norm_num

/-- C5 (amended): when loading the generated module fails, the file stays on
disk and nothing is registered, but the discovery result still reports
`created_new = true` and `found = true` with the success-shaped creation
details and no load error attached. -/
theorem load_failure_behavior (sys : DiscoverySystem) (req : ToolRequirement)
    (h : sys.loader (adapter_path sys req) = false) :
    (create_new_adapter sys req).2.created_new = true ∧
    (create_new_adapter sys req).2.found = true ∧
    ((create_new_adapter sys req).2.creation_details.map CreationDetails.isFailure)
      = some false ∧
    (create_new_adapter sys req).1.fs (adapter_path sys req)
      = some (generate_adapter_code req) ∧
    (create_new_adapter sys req).1.adapter_registry = sys.adapter_registry := by
  refine ⟨rfl, rfl, rfl, ?_, ?_⟩
  · simp only [create_new_adapter, register_new_adapter, h]
    rw [if_neg (by simp)]
    simp [writeFile]
  · simp only [create_new_adapter, register_new_adapter, h]
    rw [if_neg (by simp)]

/-- C7 (amended): the persist step writes unconditionally — after the write
the path holds exactly the new content; when the path already held identical
content the file system is unchanged; conflicting prior content is simply
overwritten and no error of any kind is raised. -/
theorem persist_always_overwrites (fs : String → Option String) (path content : String) :
    writeFile fs path content path = some content ∧
    (fs path = some content → writeFile fs path content = fs) := by
  constructor
  · simp [writeFile]
  · intro h
    funext p
    by_cases hp : p = path
    · subst hp; simp [writeFile, h]
    · simp [writeFile, hp]

/-- C9 (amended): `list_adapters` applies no status filter — every registered
record, including file-only ones, appears in the list that the matcher
scores, under its registered id and name. -/
theorem list_adapters_ignores_status (reg : Registry) (id : String)
    (info : RegisteredAdapter) (h : (id, info) ∈ reg.registered_adapters) :
    ∃ a ∈ list_adapters reg, a.id = id ∧ a.name = info.name := by
  refine ⟨adapterInfoOf reg (id, info), ?_, rfl, rfl⟩
  unfold list_adapters
  rw [mem_stableSortBy]
  exact List.mem_map_of_mem _ h

/-- C10 (confirmed): `execute_adapter` never propagates an exception — it
always returns a status dictionary, either `"success"` carrying the provider
result and no error, or `"error"` carrying an error message and no result,
and in both cases echoing the adapter id. -/
theorem execute_adapter_returns_status_dict (reg : Registry)
    (adapter_id input_data : String) :
    (((execute_adapter reg adapter_id input_data).1.status = "success" ∧
      ((execute_adapter reg adapter_id input_data).1.result).isSome = true ∧
      (execute_adapter reg adapter_id input_data).1.error = none) ∨
     ((execute_adapter reg adapter_id input_data).1.status = "error" ∧
      ((execute_adapter reg adapter_id input_data).1.error).isSome = true ∧
      (execute_adapter reg adapter_id input_data).1.result = none)) ∧
    (execute_adapter reg adapter_id input_data).1.adapter_id = adapter_id := by
  unfold execute_adapter
  rcases hget : get_adapter reg adapter_id with e | ⟨inst, reg1⟩
  · exact ⟨Or.inr ⟨rfl, rfl, rfl⟩, rfl⟩
  · by_cases hp : inst.has_process = true
    · rcases hproc : inst.process input_data with e | r
      · refine ⟨Or.inr ⟨?_, ?_, ?_⟩, ?_⟩ <;> simp [hp, hproc]
      · refine ⟨Or.inl ⟨?_, ?_, ?_⟩, ?_⟩ <;> simp [hp, hproc]
    · refine ⟨Or.inr ⟨?_, ?_, ?_⟩, ?_⟩ <;> simp [hp]

/-- C1 (counterexample): with requirement tag `csv` and adapter tag
`csv_parsing` the code scores `0.4` through substring matching while the
specified set-intersection formula gives `0`. -/
theorem match_score_formula_counterexample :
    calculate_match_score reqC1 adpC1 = some (2/5) ∧
    spec_match_score reqC1 adpC1 = 0 ∧
    calculate_match_score reqC1 adpC1 ≠ some (spec_match_score reqC1 adpC1) :=
  of_decide_eq_true (by with_unfolding_all rfl)

/-- C2 (counterexample): `sysC2` holds a record matching `reqC2` at score
`0.6` — inside the weak-match band `0.5 < s ≤ 0.8` — yet `discover_adapter`
does not return it: it synthesizes a new provider (`created_new = true`). -/
theorem weak_match_triggers_synthesis_counterexample :
    (search_existing_adapters sysC2 reqC2).found = true ∧
    (search_existing_adapters sysC2 reqC2).match_score = 3/5 ∧
    ((1:ℚ)/2 < 3/5 ∧ (3:ℚ)/5 ≤ 8/10) ∧
    (discover_adapter sysC2 reqC2).2.created_new = true ∧
    (discover_adapter sysC2 reqC2).2.adapter_id = some "generated.csv_tool" :=
  of_decide_eq_true (by with_unfolding_all rfl)

/-- C3 (code bug evidence): a successful synthesis returns
`created_new = true` and `found = true`, yet the registry store is exactly as
before the call — `_register_new_adapter` only logs, so no `AdapterRecord`
for the synthesized provider is ever inserted. -/
theorem synthesis_registers_nothing :
    (discover_adapter sysC3 reqC3).2.created_new = true ∧
    (discover_adapter sysC3 reqC3).2.found = true ∧
    (discover_adapter sysC3 reqC3).1.adapter_registry = some ({} : Registry) :=
  ⟨of_decide_eq_true (by with_unfolding_all rfl),
   of_decide_eq_true (by with_unfolding_all rfl),
   by with_unfolding_all rfl⟩

/-- C4 (counterexample): on the direct-reuse terminal outcome (`sysC4` holds
a record scoring `0.9 > 0.8` against `reqC4`) the call returns with the
discovery history untouched and the history file unwritten — no
`DiscoveryRecord` is appended. -/
theorem direct_reuse_skips_history :
    (discover_adapter sysC4 reqC4).2.found = true ∧
    (discover_adapter sysC4 reqC4).2.created_new = false ∧
    (discover_adapter sysC4 reqC4).2.match_score = 9/10 ∧
    (discover_adapter sysC4 reqC4).1.discovery_history = [] ∧
    (discover_adapter sysC4 reqC4).1.fs (history_file sysC4) = none :=
  of_decide_eq_true (by with_unfolding_all rfl)

/-- C5 (counterexample): in `sysC5` every module load fails, yet discovery
reports `created_new = true` with success-shaped creation details and no load
error, while the registry is unchanged and the generated file stays on
disk — the claim expects `created_new = false` with the load error
attached. -/
theorem load_failure_reports_success :
    (discover_adapter sysC5 reqC5).2.created_new = true ∧
    (discover_adapter sysC5 reqC5).2.found = true ∧
    ((discover_adapter sysC5 reqC5).2.creation_details.map CreationDetails.isFailure)
      = some false ∧
    (discover_adapter sysC5 reqC5).1.fs (adapter_path sysC5 reqC5)
      = some (generate_adapter_code reqC5) ∧
    (discover_adapter sysC5 reqC5).1.adapter_registry = some ({} : Registry) :=
  ⟨of_decide_eq_true (by with_unfolding_all rfl),
   of_decide_eq_true (by with_unfolding_all rfl),
   of_decide_eq_true (by with_unfolding_all rfl),
   of_decide_eq_true (by with_unfolding_all rfl),
   by with_unfolding_all rfl⟩

/-- C6 (counterexample): the empty-tag requirement `reqC6` is not rejected:
the matcher is evaluated on it (raising the division error, modelled as
`none`, which the search catches as not-found) and synthesis work is then
performed — the generated file exists and the result is `created_new = true`. -/
theorem empty_tags_reach_matcher_and_synthesis :
    reqC6.capabilities = [] ∧
    calculate_match_score reqC6 adpC6 = none ∧
    (search_existing_adapters sysC6 reqC6).found = false ∧
    (discover_adapter sysC6 reqC6).2.created_new = true ∧
    (discover_adapter sysC6 reqC6).1.fs (adapter_path sysC6 reqC6)
      = some (generate_adapter_code reqC6) :=
  of_decide_eq_true (by with_unfolding_all rfl)

/-- C7 (counterexample): the path already holds different content, yet the
persist step inside `_create_new_adapter` overwrites it and reports
success-shaped details — no `WriteError` exists anywhere on this path. -/
theorem conflicting_persist_overwrites :
    sysC7.fs (adapter_path sysC7 reqC7) = some "conflicting old content" ∧
    generate_adapter_code reqC7 ≠ "conflicting old content" ∧
    (create_new_adapter sysC7 reqC7).1.fs (adapter_path sysC7 reqC7)
      = some (generate_adapter_code reqC7) ∧
    ((create_new_adapter sysC7 reqC7).2.creation_details.map CreationDetails.isFailure)
      = some false :=
  of_decide_eq_true (by with_unfolding_all rfl)

/-- C9 (counterexample): `regC9` holds a single record with status
`file_only`, and the search scores it and returns it as the best match for
`reqC9` with score `0.6`. -/
theorem file_only_record_returned_as_best :
    ((regC9.registered_adapters.lookup "csv_tool_mcp").map (fun r => r.status))
      = some (some "file_only") ∧
    (search_existing_adapters sysC9 reqC9).found = true ∧
    (search_existing_adapters sysC9 reqC9).adapter_id = some "csv_tool_mcp" ∧
    (search_existing_adapters sysC9 reqC9).match_score = 3/5 :=
  of_decide_eq_true (by with_unfolding_all rfl)

/-- Witness for C2: the threshold policy instantiated at `sysC4`/`reqC4`
(score `0.9`, direct reuse) and at `sysC2`/`reqC2` (score `0.6`, synthesis). -/
theorem discovery_threshold_policy_witness :
    ((discover_adapter sysC4 reqC4).2 = search_existing_adapters sysC4 reqC4 ∧
     (discover_adapter sysC4 reqC4).2.created_new = false) ∧
    ((discover_adapter sysC2 reqC2).2.created_new = true ∧
     (discover_adapter sysC2 reqC2).2 = (create_new_adapter sysC2 reqC2).2) :=
  ⟨(discovery_threshold_policy sysC4 reqC4).1
      ⟨of_decide_eq_true (by with_unfolding_all rfl),
       of_decide_eq_true (by with_unfolding_all rfl)⟩,
   (discovery_threshold_policy sysC2 reqC2).2
      (fun _ => of_decide_eq_true (by with_unfolding_all rfl))⟩

/-- Witness for C5: the load-failure behaviour instantiated at `sysC5`, whose
load oracle always fails. -/
theorem load_failure_behavior_witness :
    (create_new_adapter sysC5 reqC5).2.created_new = true ∧
    (create_new_adapter sysC5 reqC5).2.found = true ∧
    ((create_new_adapter sysC5 reqC5).2.creation_details.map CreationDetails.isFailure)
      = some false ∧
    (create_new_adapter sysC5 reqC5).1.fs (adapter_path sysC5 reqC5)
      = some (generate_adapter_code reqC5) ∧
    (create_new_adapter sysC5 reqC5).1.adapter_registry = sysC5.adapter_registry :=
  load_failure_behavior sysC5 reqC5 rfl

/-- Witness for C6: the empty-tag requirement `reqC6` drives `sysC6` into
synthesis. -/
theorem empty_tags_proceed_to_synthesis_witness :
    (discover_adapter sysC6 reqC6).2.created_new = true ∧
    (discover_adapter sysC6 reqC6).2 = (create_new_adapter sysC6 reqC6).2 :=
  empty_tags_proceed_to_synthesis sysC6 reqC6 rfl

/-- Witness for C7: writing content identical to what `fsC7` already holds
leaves the file system unchanged. -/
theorem persist_always_overwrites_witness :
    writeFile fsC7 "g/x_adapter.py" "same" "g/x_adapter.py" = some "same" ∧
    writeFile fsC7 "g/x_adapter.py" "same" = fsC7 :=
  ⟨(persist_always_overwrites fsC7 "g/x_adapter.py" "same").1,
   (persist_always_overwrites fsC7 "g/x_adapter.py" "same").2
     (of_decide_eq_true (by with_unfolding_all rfl))⟩

/-- Witness for C8: the bound instantiated at `reqC8`/`adpC8`, whose score is
`0.9`, and at the discovery result of `sysC2`/`reqC2`. -/
theorem match_score_in_unit_interval_witness :
    ((0:ℚ) ≤ 9/10 ∧ (9:ℚ)/10 ≤ 1) ∧
    (0 ≤ (discover_adapter sysC2 reqC2).2.match_score ∧
      (discover_adapter sysC2 reqC2).2.match_score ≤ 1) :=
  ⟨match_score_in_unit_interval.1 reqC8 adpC8 (9/10)
      (of_decide_eq_true (by with_unfolding_all rfl)),
   match_score_in_unit_interval.2 sysC2 reqC2⟩

/-- Witness for C9: the file-only record of `regC9` appears in the scored
list under its id. -/
theorem list_adapters_ignores_status_witness :
    ∃ a ∈ list_adapters regC9, a.id = "csv_tool_mcp" ∧ a.name = "csv_tool_mcp" :=
  list_adapters_ignores_status regC9 "csv_tool_mcp" infoC9 (List.Mem.head _)
